import Mathlib

/-
  Verification development for the BareMetalNIC repository.

  Shallow embedding of the three ring-engine drivers:
  - CustomNICDriver        (src/include/ull_nic/custom_driver.hpp)
  - BroadcomNetXtreme      (src/unnamed/part_001, broadcom_netxtreme.hpp)
  - SolarflareEFVI         (src/include/ull_nic/solarflare_efvi.hpp)

  Modelling conventions:
  - Machine integers are Nat.  Ring indices are kept below the ring size by
    the drivers themselves via the bitmask `x & (SIZE - 1)`, which is embedded
    literally as `x &&& (SIZE - 1)` (the ring sizes are powers of two, so this
    equals `x % SIZE`; see the mask bridge lemmas below).
  - Descriptor arrays and DMA buffer regions are total functions from Nat;
    the drivers only ever touch indices produced by the masking above.
  - A C++ out-parameter pair (packet pointer, packet length) is modelled as an
    `Option (Nat × Nat)` return value; `none` is the `return false` path.
  - MMIO registers written by software are modelled as a map from register
    offset to the last value written.  Register values produced by hardware
    (the hardware head counters read by CustomNICDriver) are modelled as
    explicit state fields, since the hardware side is an external actor.
  - The `volatile` stores, `_mm_prefetch` and the fences have no effect on the
    functional state; the ordering structure of each hot path is modelled
    separately as an explicit event trace (see the MemEvent section), taken
    line by line from the source.
-/

namespace BareMetalNIC

/-- Modelled from the spec: `PacketStats` is defined in `common_types.hpp`,
which is not present under `src/`.  The spec (section 6) gives the stats
snapshot as `{frames_rx, frames_tx, bytes_rx, bytes_tx, rx_errors, tx_errors,
rx_dropped, tx_dropped}`, monotonically increasing counters, value
constructed; the default constructor `PacketStats()` zero initialises. -/
structure PacketStats where
  frames_rx : Nat := 0
  frames_tx : Nat := 0
  bytes_rx : Nat := 0
  bytes_tx : Nat := 0
  rx_errors : Nat := 0
  tx_errors : Nat := 0
  rx_dropped : Nat := 0
  tx_dropped : Nat := 0
deriving DecidableEq

namespace CustomNIC

/-- constexpr size_t RX_RING_SIZE = 512 (custom_driver.hpp:120). -/
def RX_RING_SIZE : Nat := 512

/-- constexpr size_t TX_RING_SIZE = 512 (custom_driver.hpp:121). -/
def TX_RING_SIZE : Nat := 512

/-- constexpr size_t PACKET_BUFFER_SIZE = 2048 (custom_driver.hpp:122). -/
def PACKET_BUFFER_SIZE : Nat := 2048

/-- registers::RX_TAIL = 0x2818 (custom_driver.hpp:132). -/
def REG_RX_TAIL : Nat := 0x2818

/-- registers::TX_TAIL = 0x6018 (custom_driver.hpp:139). -/
def REG_TX_TAIL : Nat := 0x6018

/-- constexpr uint32_t RX_DD_BIT = 1 << 0 (custom_driver.hpp:188). -/
def RX_DD_BIT : Nat := 1

/-- RXDescriptor (custom_driver.hpp:157), with the status union expanded into
its pkt_len / hdr_len / status_flags view, the one the driver reads. -/
structure RXDescriptor where
  buffer_addr : Nat
  header_addr : Nat
  pkt_len : Nat
  hdr_len : Nat
  status_flags : Nat
  reserved : Nat
deriving DecidableEq

/-- TXDescriptor (custom_driver.hpp:180). -/
structure TXDescriptor where
  buffer_addr : Nat
  cmd_type_len : Nat
  olinfo_status : Nat
  reserved : Nat
deriving DecidableEq

/-- State of one CustomNICDriver instance.  rx_buffers_/tx_buffers_ are
per-slot allocations, modelled slot-by-slot (slot index, byte offset);
txBufPhys models virt_to_phys of each slot buffer (fixed at allocation).
hwRxHead/hwTxHead are the values the hardware-owned RX_HEAD/TX_HEAD registers
would return when read. -/
structure State where
  rxDesc : Nat → RXDescriptor
  txDesc : Nat → TXDescriptor
  rxBuf : Nat → Nat → Nat
  txBuf : Nat → Nat → Nat
  txBufPhys : Nat → Nat
  rx_head : Nat
  tx_tail : Nat
  regs : Nat → Nat
  hwRxHead : Nat
  hwTxHead : Nat

/-- write_reg32 (custom_driver.hpp:484): volatile 32-bit MMIO store followed
by an mfence; functionally it records the last value written at the offset. -/
def write_reg32 (regs : Nat → Nat) (offset value : Nat) : Nat → Nat :=
  fun o => if o = offset then value else regs o

/-- poll_rx (custom_driver.hpp:299-330).  Reads the hardware RX head
register, returns early when it equals the software head or the DD bit of the
descriptor at the software head is clear; otherwise hands out the slot buffer
pointer (modelled by the slot index) and the raw descriptor pkt_len, clears
the status flags, advances the software head with the ring mask, and writes
the new head to the RX tail register. -/
def poll_rx (s : State) : Option (Nat × Nat) × State :=
  let hw_head := s.hwRxHead
  if hw_head = s.rx_head then (none, s)
  else
    let desc := s.rxDesc s.rx_head
    if desc.status_flags &&& RX_DD_BIT = 0 then (none, s)
    else
      let pdata := s.rx_head
      let plen := desc.pkt_len
      let rxDesc' := fun i =>
        if i = s.rx_head then { desc with status_flags := 0 } else s.rxDesc i
      let newHead := (s.rx_head + 1) &&& (RX_RING_SIZE - 1)
      (some (pdata, plen),
        { s with rxDesc := rxDesc', rx_head := newHead,
                 regs := write_reg32 s.regs REG_RX_TAIL newHead })

/-- submit_tx (custom_driver.hpp:406-428).  Rejects frames longer than
PACKET_BUFFER_SIZE; otherwise copies the frame into the slot buffer at
tx_tail, fills the TX descriptor, writes the masked new tail to the TX tail
register and advances the software tail.  There is no ring-full check. -/
def submit_tx (s : State) (data : Nat → Nat) (len : Nat) : Bool × State :=
  if PACKET_BUFFER_SIZE < len then (false, s)
  else
    let slot := s.tx_tail
    let txBuf' := fun i off =>
      if i = slot ∧ off < len then data off else s.txBuf i off
    let desc' : TXDescriptor :=
      { buffer_addr := s.txBufPhys slot
        cmd_type_len := (len <<< 16) ||| 1
        olinfo_status := 0
        reserved := (s.txDesc slot).reserved }
    let txDesc' := fun i => if i = slot then desc' else s.txDesc i
    let new_tail := (s.tx_tail + 1) &&& (TX_RING_SIZE - 1)
    (true,
      { s with txBuf := txBuf', txDesc := txDesc', tx_tail := new_tail,
               regs := write_reg32 s.regs REG_TX_TAIL new_tail })

/-- get_stats (custom_driver.hpp:445-448): const member returning a freshly
value-constructed PacketStats; the driver state is untouched. -/
def get_stats (s : State) : PacketStats × State :=
  (({} : PacketStats), s)

/-- Iterated submit_tx with a fixed frame, collecting each returned Bool. -/
def runSubmits (data : Nat → Nat) (len : Nat) : Nat → State → List Bool × State
  | 0, s => ([], s)
  | n + 1, s =>
    let r := submit_tx s data len
    let rest := runSubmits data len n r.2
    (r.1 :: rest.1, rest.2)

/-- A concrete all-zero driver state (descriptors and buffers zeroed as after
initialize(), software cursors at 0). -/
def fresh : State :=
  { rxDesc := fun _ => ⟨0, 0, 0, 0, 0, 0⟩
    txDesc := fun _ => ⟨0, 0, 0, 0⟩
    rxBuf := fun _ _ => 0
    txBuf := fun _ _ => 0
    txBufPhys := fun i => i
    rx_head := 0
    tx_tail := 0
    regs := fun _ => 0
    hwRxHead := 0
    hwTxHead := 0 }

/-- A concrete driver state in which hardware has advanced its RX head past
the software head and the head descriptor is done with a pkt_len of 4096,
twice the 2048-byte slot capacity. -/
def rxOversizeState : State :=
  { fresh with
      rxDesc := fun i => if i = 0 then ⟨0, 0, 4096, 0, 1, 0⟩ else ⟨0, 0, 0, 0, 0, 0⟩
      hwRxHead := 5 }

end CustomNIC

namespace Bcm

/-- BroadcomNetXtreme::RX_RING_SIZE = 1024 (broadcom_netxtreme.hpp:109). -/
def RX_RING_SIZE : Nat := 1024

/-- BroadcomNetXtreme::TX_RING_SIZE = 1024 (broadcom_netxtreme.hpp:110). -/
def TX_RING_SIZE : Nat := 1024

/-- BroadcomNetXtreme::MAX_PACKET_SIZE = 9216, jumbo frames
(broadcom_netxtreme.hpp:111). -/
def MAX_PACKET_SIZE : Nat := 9216

/-- REG_RX_RING_TAIL = 0x2818 (broadcom_netxtreme.hpp:72). -/
def REG_RX_RING_TAIL : Nat := 0x2818

/-- REG_TX_RING_TAIL = 0x3818 (broadcom_netxtreme.hpp:78). -/
def REG_TX_RING_TAIL : Nat := 0x3818

/-- DESC_STATUS_DD = 1 << 0 (broadcom_netxtreme.hpp:103). -/
def DESC_STATUS_DD : Nat := 1

/-- DESC_CMD_EOP = 1 << 24 (broadcom_netxtreme.hpp:105). -/
def DESC_CMD_EOP : Nat := 1 <<< 24

/-- DESC_CMD_IFCS = 1 << 25 (broadcom_netxtreme.hpp:106). -/
def DESC_CMD_IFCS : Nat := 1 <<< 25

/-- RxDescriptor (broadcom_netxtreme.hpp:116). -/
structure RxDescriptor where
  buffer_addr : Nat
  length : Nat
  checksum : Nat
  status : Nat
  errors : Nat
  vlan_tag : Nat
  rss_hash : Nat
  timestamp_lo : Nat
deriving DecidableEq

/-- TxDescriptor (broadcom_netxtreme.hpp:130). -/
structure TxDescriptor where
  buffer_addr : Nat
  cmd_type_len : Nat
  status : Nat
  checksum_offset : Nat
  vlan_tag : Nat
  timestamp_req : Nat
  reserved : Nat
deriving DecidableEq

/-- State of one BroadcomNetXtreme instance.  rx_buffers_/tx_buffers_ are
single contiguous regions of RING_SIZE * MAX_PACKET_SIZE bytes; rxBuf/txBuf
map the byte offset from the region base to the byte stored there, and
rxBufsBase/txBufsBase are the virtual base addresses (get_physical_addr is
the identity on virtual addresses, broadcom_netxtreme.hpp:522-526). -/
structure BState where
  rxDesc : Nat → RxDescriptor
  txDesc : Nat → TxDescriptor
  rxBuf : Nat → Nat
  txBuf : Nat → Nat
  rxBufsBase : Nat
  txBufsBase : Nat
  rx_head : Nat
  tx_head : Nat
  tx_tail : Nat
  packets_received : Nat
  packets_sent : Nat
  regs : Nat → Nat

/-- write_reg (broadcom_netxtreme.hpp:539-542): a bare volatile MMIO store,
no fence; functionally it records the last value written at the offset. -/
def write_reg (regs : Nat → Nat) (offset value : Nat) : Nat → Nat :=
  fun o => if o = offset then value else regs o

/-- Subtraction on a uint32_t value, as in the expression
(rx_head_ - 1) at broadcom_netxtreme.hpp:244: two's-complement wrap at 0. -/
def u32_sub_one (x : Nat) : Nat := (x + 4294967295) % 4294967296

/-- receive_packet (broadcom_netxtreme.hpp:222-248).  Returns none when the
DD bit of the descriptor at rx_head_ is clear; otherwise returns the pointer
rx_buffers_ + rx_head_ * MAX_PACKET_SIZE and the raw descriptor length,
clears the descriptor status, advances rx_head_ with the ring mask, writes
(rx_head_ - 1) & (RX_RING_SIZE - 1) -- the index of the slot just consumed,
not the new head -- to the RX tail register, and increments
packets_received_.  The _mm_prefetch of the next descriptor is a no-op. -/
def receive_packet (s : BState) : Option (Nat × Nat) × BState :=
  let desc := s.rxDesc s.rx_head
  if desc.status &&& DESC_STATUS_DD = 0 then (none, s)
  else
    let pkt := s.rxBufsBase + s.rx_head * MAX_PACKET_SIZE
    let len := desc.length
    let rxDesc' := fun i =>
      if i = s.rx_head then { desc with status := 0 } else s.rxDesc i
    let newHead := (s.rx_head + 1) &&& (RX_RING_SIZE - 1)
    (some (pkt, len),
      { s with rxDesc := rxDesc', rx_head := newHead,
               regs := write_reg s.regs REG_RX_RING_TAIL
                 (u32_sub_one newHead &&& (RX_RING_SIZE - 1))
               packets_received := s.packets_received + 1 })

/-- reclaim_tx_descriptors loop body (broadcom_netxtreme.hpp:509-517),
written with explicit fuel.  The C++ while loop stops when tx_head_ equals
tx_tail_ or the descriptor at tx_head_ does not have DD set, and otherwise
advances tx_head_ by one slot (masked).  Each iteration strictly decreases
the ring distance (tx_tail_ - tx_head_) mod N, so the loop runs at most
TX_RING_SIZE - 1 times; fuel TX_RING_SIZE is enough. -/
def reclaimAux (d : Nat → TxDescriptor) (tail : Nat) : Nat → Nat → Nat
  | 0, head => head
  | fuel + 1, head =>
    if head = tail then head
    else if (d head).status &&& DESC_STATUS_DD = 0 then head
    else reclaimAux d tail fuel ((head + 1) &&& (TX_RING_SIZE - 1))

/-- reclaim_tx_descriptors (broadcom_netxtreme.hpp:509-517): advances
tx_head_ as far as the completed-descriptor scan allows; nothing else in the
state is touched. -/
def reclaim_tx_descriptors (s : BState) : BState :=
  { s with tx_head := reclaimAux s.txDesc s.tx_tail TX_RING_SIZE s.tx_head }

/-- Success branch of send_packet (broadcom_netxtreme.hpp:268-289): copy the
frame into the slot buffer at tx_tail_, fill the descriptor (buffer_addr,
cmd_type_len, status, checksum_offset, vlan_tag; timestamp_req and reserved
are left as they were), issue the sfence (no functional effect), set
tx_tail_ to next_tail, write it to the TX tail register, and increment
packets_sent_. -/
def sendCore (s : BState) (data : Nat → Nat) (len : Nat) (next_tail : Nat) :
    Bool × BState :=
  let base := s.tx_tail * MAX_PACKET_SIZE
  let txBuf' := fun a =>
    if base ≤ a ∧ a < base + len then data (a - base) else s.txBuf a
  let d0 := s.txDesc s.tx_tail
  let desc' : TxDescriptor :=
    { buffer_addr := s.txBufsBase + base
      cmd_type_len := len ||| DESC_CMD_EOP ||| DESC_CMD_IFCS
      status := 0
      checksum_offset := 0
      vlan_tag := 0
      timestamp_req := d0.timestamp_req
      reserved := d0.reserved }
  let txDesc' := fun i => if i = s.tx_tail then desc' else s.txDesc i
  (true,
    { s with txBuf := txBuf', txDesc := txDesc', tx_tail := next_tail,
             regs := write_reg s.regs REG_TX_RING_TAIL next_tail,
             packets_sent := s.packets_sent + 1 })

/-- send_packet (broadcom_netxtreme.hpp:256-290).  next_tail is the masked
successor of tx_tail_; when it equals tx_head_ the ring is full, one reclaim
pass runs, and if next_tail still equals the (possibly advanced) tx_head_
the call returns false with no further change.  There is no check of the
frame length against MAX_PACKET_SIZE. -/
def send_packet (s : BState) (data : Nat → Nat) (len : Nat) : Bool × BState :=
  let next_tail := (s.tx_tail + 1) &&& (TX_RING_SIZE - 1)
  if next_tail = s.tx_head then
    let s1 := reclaim_tx_descriptors s
    if next_tail = s1.tx_head then (false, s1)
    else sendCore s1 data len next_tail
  else sendCore s data len next_tail

/-- get_packets_received (broadcom_netxtreme.hpp:350): const member
returning the counter; the state is untouched. -/
def get_packets_received (s : BState) : Nat × BState :=
  (s.packets_received, s)

/-- get_packets_sent (broadcom_netxtreme.hpp:351): const member returning
the counter; the state is untouched. -/
def get_packets_sent (s : BState) : Nat × BState :=
  (s.packets_sent, s)

/-- Iterated send_packet with a fixed frame, collecting each returned Bool. -/
def runSubmits (data : Nat → Nat) (len : Nat) : Nat → BState → List Bool × BState
  | 0, s => ([], s)
  | n + 1, s =>
    let r := send_packet s data len
    let rest := runSubmits data len n r.2
    (r.1 :: rest.1, rest.2)

/-- The public operations whose sequences the statistics claims quantify
over: receive_packet, send_packet and reclaim_tx_descriptors. -/
inductive Op where
  | recv : Op
  | send : (Nat → Nat) → Nat → Op
  | reclaimOp : Op

/-- Run a sequence of public operations, head of the list first. -/
def run : List Op → BState → BState
  | [], s => s
  | Op.recv :: ops, s => run ops (receive_packet s).2
  | Op.send data len :: ops, s => run ops (send_packet s data len).2
  | Op.reclaimOp :: ops, s => run ops (reclaim_tx_descriptors s)

/-- An all-zero TX descriptor. -/
def zeroTxDesc : TxDescriptor := ⟨0, 0, 0, 0, 0, 0, 0⟩

/-- A concrete state with an empty ring: descriptors zeroed as after
allocate_rings (RX descriptors additionally carry their buffer addresses),
cursors and counters at 0. -/
def fresh : BState :=
  { rxDesc := fun i => ⟨i * MAX_PACKET_SIZE, 0, 0, 0, 0, 0, 0, 0⟩
    txDesc := fun _ => zeroTxDesc
    rxBuf := fun _ => 0
    txBuf := fun _ => 0
    rxBufsBase := 0
    txBufsBase := 0
    rx_head := 0
    tx_head := 0
    tx_tail := 0
    packets_received := 0
    packets_sent := 0
    regs := fun _ => 0 }

/-- A concrete full TX ring: tail one slot behind head (modulo the ring
size), no completions pending. -/
def fullState : BState := { fresh with tx_tail := 1023 }

/-- A concrete full TX ring in which the three oldest pending descriptors
have been marked complete (DD set). -/
def fullThreeDone : BState :=
  { fresh with
      tx_tail := 1023
      txDesc := fun i => if i < 3 then { zeroTxDesc with status := 1 } else zeroTxDesc }

/-- A concrete driver state whose head RX descriptor is done with a frame of
length 100. -/
def rxReadyState : BState :=
  { fresh with
      rxDesc := fun i =>
        if i = 0 then ⟨0, 100, 0, 1, 0, 0, 0, 0⟩ else ⟨0, 0, 0, 0, 0, 0, 0, 0⟩ }

end Bcm

namespace Efvi

/-- EFVI_RX_RING_SIZE = 512 (solarflare_efvi.hpp:93). -/
def EFVI_RX_RING_SIZE : Nat := 512

/-- EFVI_TX_RING_SIZE = 512 (solarflare_efvi.hpp:94). -/
def EFVI_TX_RING_SIZE : Nat := 512

/-- EFVI_PKT_BUF_SIZE = 2048 (solarflare_efvi.hpp:95). -/
def EFVI_PKT_BUF_SIZE : Nat := 2048

/-- EFVI_NUM_BUFS = 1024 (solarflare_efvi.hpp:96). -/
def EFVI_NUM_BUFS : Nat := 1024

/-- efvi_packet (solarflare_efvi.hpp:123): the fields poll_rx writes.  The
2048-byte data array is carried as a function and never written by the
simulated poll_rx. -/
structure EfviPacket where
  data : Nat → Nat
  len : Nat
  timestamp_ns : Nat

/-- State of one SolarflareEFVI instance.  pkt_bufs models
handle_.pkt_bufs: `none` is a null pointer, `some a` a buffer at address a.
clock models the value get_timestamp() returns.  The bytes behind the
buffer pointers are outside the model: submit_tx memcpy-s through
pkt_bufs[tx_posted_], which after initialization is a null pointer. -/
structure SfState where
  initialized : Bool
  rx_posted : Nat
  tx_posted : Nat
  pkt_bufs : Nat → Option Nat
  clock : Nat

/-- allocate_packet_buffers (solarflare_efvi.hpp:352-358): sets every
pkt_bufs entry to nullptr ("Placeholder for simulation"). -/
def allocate_packet_buffers (s : SfState) : SfState :=
  { s with pkt_bufs := fun _ => none }

/-- post_rx_buffer (solarflare_efvi.hpp:370-373): increments rx_posted_;
the buf_id argument is unused by the simulation. -/
def post_rx_buffer (s : SfState) (_bufId : Nat) : SfState :=
  { s with rx_posted := s.rx_posted + 1 }

/-- The initialize() loop posting the first EFVI_RX_RING_SIZE RX buffers
(solarflare_efvi.hpp:195-197), iterating i = 0, 1, ... -/
def postLoop (s : SfState) : Nat → SfState
  | 0 => s
  | n + 1 => post_rx_buffer (postLoop s n) n

/-- initialize (solarflare_efvi.hpp:186-200): marks the instance
initialized, zeroes (nulls) the packet-buffer pointers, posts
EFVI_RX_RING_SIZE RX buffers and returns true. -/
def initializeDriver (s : SfState) : Bool × SfState :=
  let s1 := { s with initialized := true }
  let s2 := allocate_packet_buffers s1
  let s3 := postLoop s2 EFVI_RX_RING_SIZE
  (true, s3)

/-- poll_rx (solarflare_efvi.hpp:222-244): returns false when not
initialized; when rx_posted_ > 0 it fabricates a 64-byte packet (len := 64,
timestamp from get_timestamp()), decrements rx_posted_, immediately re-posts
one buffer (rx_posted_ back up by one) and returns true. -/
def poll_rx (s : SfState) (pkt : EfviPacket) : Bool × EfviPacket × SfState :=
  if s.initialized = false then (false, pkt, s)
  else if 0 < s.rx_posted then
    let pkt' := { pkt with len := 64, timestamp_ns := s.clock }
    let s1 := { s with rx_posted := s.rx_posted - 1 }
    let s2 := post_rx_buffer s1 s1.rx_posted
    (true, pkt', s2)
  else (false, pkt, s)

/-- submit_tx (solarflare_efvi.hpp:260-289): rejects when not initialized
or len > EFVI_PKT_BUF_SIZE; when tx_posted_ < EFVI_TX_RING_SIZE it fetches
the buffer pointer handle_.pkt_bufs[tx_posted_], memcpy-s the frame through
it, increments tx_posted_ and returns true. -/
def submit_tx (s : SfState) (len : Nat) : Bool × SfState :=
  if s.initialized = false then (false, s)
  else if EFVI_PKT_BUF_SIZE < len then (false, s)
  else if s.tx_posted < EFVI_TX_RING_SIZE then
    (true, { s with tx_posted := s.tx_posted + 1 })
  else (false, s)

/-- poll_tx_completions (solarflare_efvi.hpp:307-313): decrements
tx_posted_ when positive. -/
def poll_tx_completions (s : SfState) : SfState :=
  if 0 < s.tx_posted then { s with tx_posted := s.tx_posted - 1 } else s

/-- get_stats (solarflare_efvi.hpp:331-334): const member returning a
freshly value-constructed PacketStats; the state is untouched. -/
def get_stats (s : SfState) : PacketStats × SfState :=
  (({} : PacketStats), s)

/-- Public operations of the simulated backend. -/
inductive Op where
  | poll : Op
  | submit : Nat → Op
  | txComp : Op
  | stats : Op

/-- Run a sequence of public operations, head of the list first.  The packet
out-parameter of poll_rx does not feed back into the state, so a scratch
packet is used. -/
def scratchPkt : EfviPacket := ⟨fun _ => 0, 0, 0⟩

/-- Run a sequence of public operations over the state. -/
def run : List Op → SfState → SfState
  | [], s => s
  | Op.poll :: ops, s => run ops (poll_rx s scratchPkt).2.2
  | Op.submit len :: ops, s => run ops (submit_tx s len).2
  | Op.txComp :: ops, s => run ops (poll_tx_completions s)
  | Op.stats :: ops, s => run ops (get_stats s).2

/-- The constructor state (solarflare_efvi.hpp:164): initialized_ = false,
rx_posted_ = 0, tx_posted_ = 0; handle_.pkt_bufs is left uninitialized by
the constructor, so it is a parameter. -/
def ctor (bufs0 : Nat → Option Nat) (clock : Nat) : SfState :=
  { initialized := false, rx_posted := 0, tx_posted := 0,
    pkt_bufs := bufs0, clock := clock }

/-- State of a freshly constructed instance right after initialize(). -/
def afterInit (bufs0 : Nat → Option Nat) (clk : Nat) : SfState :=
  (initializeDriver (ctor bufs0 clk)).2

/-- State reached from a freshly initialized instance by an arbitrary
sequence of public operations. -/
def afterOps (bufs0 : Nat → Option Nat) (clk : Nat) (ops : List Op) : SfState :=
  run ops (afterInit bufs0 clk)

end Efvi

/-- Memory events of one straight-line driver path, in program order:
stores to DMA-visible descriptor or buffer memory, store-ordering barriers
(mfence or sfence), MMIO writes to a ring tail register, and other MMIO
writes. -/
inductive MemEvent where
  | dataWrite : MemEvent
  | barrier : MemEvent
  | tailWrite : MemEvent
  | regWrite : MemEvent
deriving DecidableEq

namespace Traces

open MemEvent

/-- Event trace of CustomNICDriver::submit_tx (custom_driver.hpp:406-428):
memcpy into the slot buffer, three descriptor field stores, then
write_reg32(TX_TAIL) which is the MMIO store followed by its mfence. -/
def customSubmitTx : List MemEvent :=
  [dataWrite,                       -- memcpy into tx_buffers_[tx_tail_]
   dataWrite, dataWrite, dataWrite, -- desc.buffer_addr / cmd_type_len / olinfo_status
   tailWrite, barrier]              -- write_reg32(TX_TAIL): store, then mfence

/-- Event trace of the packet-found path of CustomNICDriver::poll_rx
(custom_driver.hpp:299-330): clear the descriptor status flags, then
write_reg32(RX_TAIL) (store, then mfence). -/
def customPollRxHit : List MemEvent :=
  [dataWrite,            -- desc.status_flags = 0
   tailWrite, barrier]   -- write_reg32(RX_TAIL): store, then mfence

/-- Event trace of CustomNICDriver::program_rx_ring (custom_driver.hpp:
575-588), preceded by the descriptor/buffer initialization stores of
initialize(); each write_reg32 is an MMIO store followed by its mfence. -/
def customProgramRxRing : List MemEvent :=
  [dataWrite,            -- rx_ring_[i] initialization in initialize()
   regWrite, barrier,    -- RX_BASE_LO
   regWrite, barrier,    -- RX_BASE_HI
   regWrite, barrier,    -- RX_LEN
   regWrite, barrier,    -- RX_HEAD
   tailWrite, barrier]   -- RX_TAIL

/-- Event trace of the success path of BroadcomNetXtreme::send_packet
(broadcom_netxtreme.hpp:256-290): memcpy, five descriptor field stores,
_mm_sfence, then the bare write_reg(TX_RING_TAIL). -/
def bcmSendPacket : List MemEvent :=
  [dataWrite,                                            -- memcpy
   dataWrite, dataWrite, dataWrite, dataWrite, dataWrite, -- descriptor fields
   barrier,                                              -- _mm_sfence
   tailWrite]                                            -- write_reg(TX_RING_TAIL)

/-- Event trace of the packet-found path of BroadcomNetXtreme::
receive_packet (broadcom_netxtreme.hpp:222-248): clear the descriptor
status, then the bare write_reg(RX_RING_TAIL); no barrier anywhere. -/
def bcmReceivePacketHit : List MemEvent :=
  [dataWrite,    -- desc->status = 0
   tailWrite]    -- write_reg(RX_RING_TAIL)

/-- Event trace of the ring-register programming in BroadcomNetXtreme::
initialize (broadcom_netxtreme.hpp:186-199), preceded by the
allocate_rings() memsets and RX descriptor setup; write_reg has no fence. -/
def bcmInitialize : List MemEvent :=
  [dataWrite,                               -- allocate_rings: memsets, rx descriptors
   regWrite, regWrite, regWrite, regWrite,  -- RX base lo/hi, size, head
   tailWrite,                               -- RX_RING_TAIL
   regWrite, regWrite, regWrite, regWrite,  -- TX base lo/hi, size, head
   tailWrite]                               -- TX_RING_TAIL

/-- Walker for the ordering property: dirty records whether a DMA-visible
store has happened since the last barrier; a tail-register write found with
dirty set is a violation. -/
def tailOrderedAux : Bool → List MemEvent → Bool
  | _, [] => true
  | _, MemEvent.dataWrite :: rest => tailOrderedAux true rest
  | _, MemEvent.barrier :: rest => tailOrderedAux false rest
  | dirty, MemEvent.tailWrite :: rest => !dirty && tailOrderedAux dirty rest
  | dirty, MemEvent.regWrite :: rest => tailOrderedAux dirty rest

/-- A trace hands ring ownership to hardware safely when every tail-register
write is separated from every earlier DMA-visible store by a barrier. -/
def tailOrdered (tr : List MemEvent) : Bool := tailOrderedAux false tr

end Traces

/-
  Helper lemmas.
-/

/-- The ring mask of the 512-slot rings: x & 511 = x mod 512. -/
@[simp] theorem mask511 (x : Nat) : x &&& 511 = x % 512 := by
  have h := Nat.and_pow_two_sub_one_eq_mod x 9
  norm_num at h
  exact h

/-- The ring mask of the 1024-slot rings: x & 1023 = x mod 1024. -/
@[simp] theorem mask1023 (x : Nat) : x &&& 1023 = x % 1024 := by
  have h := Nat.and_pow_two_sub_one_eq_mod x 10
  norm_num at h
  exact h

/-- The tail value written by BroadcomNetXtreme::receive_packet,
(rx_head_ - 1) & (RX_RING_SIZE - 1) evaluated after the head advance, is the
pre-advance head index. -/
theorem u32_tail (h : Nat) (hh : h < 1024) :
    Bcm.u32_sub_one ((h + 1) % 1024) % 1024 = h := by
  simp only [Bcm.u32_sub_one]
  omega

namespace Bcm

/-- Characterization of the reclaim loop: if the k descriptors from head on
are all complete (DD set) and the scan has not reached tail inside the run,
and the slot after the run stops the scan (tail reached or DD clear), the
loop leaves head at (head + k) mod N.  Fuel only needs to cover k. -/
theorem reclaimAux_spec (d : Nat → TxDescriptor) (tail : Nat) :
    ∀ (k fuel head : Nat), k ≤ fuel → head < 1024 →
    (∀ i, i < k → (head + i) % 1024 ≠ tail ∧
      (d ((head + i) % 1024)).status &&& 1 ≠ 0) →
    ((head + k) % 1024 = tail ∨ (d ((head + k) % 1024)).status &&& 1 = 0) →
    reclaimAux d tail fuel head = (head + k) % 1024 := by
  intro k
  induction k with
  | zero =>
    intro fuel head _ hlt _ hstop
    have hmod : (head + 0) % 1024 = head := by omega
    rw [hmod] at hstop ⊢
    cases fuel with
    | zero => rfl
    | succ f =>
      rcases hstop with h | h
      · simp [reclaimAux, h]
      · by_cases he : head = tail
        · simp [reclaimAux, he]
        · simp [reclaimAux, he, DESC_STATUS_DD, h]
  | succ k ih =>
    intro fuel head hfuel hlt hrun hstop
    obtain ⟨f, rfl⟩ : ∃ f, fuel = f + 1 := ⟨fuel - 1, by omega⟩
    have h0 := hrun 0 (by omega)
    rw [Nat.add_zero, Nat.mod_eq_of_lt hlt] at h0
    rw [reclaimAux, if_neg h0.1, if_neg (by simpa [DESC_STATUS_DD] using h0.2)]
    have hlt1 : (head + 1) &&& (TX_RING_SIZE - 1) = (head + 1) % 1024 := by
      simp [TX_RING_SIZE]
    rw [hlt1]
    have := ih f ((head + 1) % 1024) (by omega) (Nat.mod_lt _ (by omega))
      (fun i hi => by
        have := hrun (i + 1) (by omega)
        constructor
        · simpa [Nat.mod_add_mod, Nat.add_assoc, Nat.add_comm 1 i] using this.1
        · simpa [Nat.mod_add_mod, Nat.add_assoc, Nat.add_comm 1 i] using this.2)
      (by
        rcases hstop with h | h
        · left
          simpa [Nat.mod_add_mod, Nat.add_assoc, Nat.add_comm 1 k] using h
        · right
          simpa [Nat.mod_add_mod, Nat.add_assoc, Nat.add_comm 1 k] using h)
    rw [this]
    omega

/-- A full ring whose head descriptor is not complete rejects the submit:
the reclaim pass cannot advance and send_packet returns false leaving the
state exactly as it was. -/
theorem send_packet_full_stuck (s : BState) (d : Nat → Nat) (l : Nat)
    (hh : s.tx_head < 1024)
    (hfull : (s.tx_tail + 1) % 1024 = s.tx_head)
    (hdd : (s.txDesc s.tx_head).status &&& 1 = 0) :
    send_packet s d l = (false, s) := by
  have hrec : reclaimAux s.txDesc s.tx_tail TX_RING_SIZE s.tx_head = s.tx_head := by
    have := reclaimAux_spec s.txDesc s.tx_tail 0 TX_RING_SIZE s.tx_head
      (by omega) hh (by omega)
      (by right; simpa [Nat.mod_eq_of_lt hh] using hdd)
    simpa [Nat.mod_eq_of_lt hh] using this
  have hrs : reclaim_tx_descriptors s = s := by
    simp [reclaim_tx_descriptors, hrec]
  have h1 : (s.tx_tail + 1) &&& (TX_RING_SIZE - 1) = (s.tx_tail + 1) % 1024 := by
    simp [TX_RING_SIZE]
  simp only [send_packet, h1]
  rw [if_pos hfull, hrs, if_pos hfull]

/-- A submit that does not find the ring full goes straight to the success
branch. -/
theorem send_packet_go (s : BState) (d : Nat → Nat) (l : Nat)
    (hnf : (s.tx_tail + 1) % 1024 ≠ s.tx_head) :
    send_packet s d l = sendCore s d l ((s.tx_tail + 1) % 1024) := by
  have h1 : (s.tx_tail + 1) &&& (TX_RING_SIZE - 1) = (s.tx_tail + 1) % 1024 := by
    simp [TX_RING_SIZE]
  simp only [send_packet, h1]
  rw [if_neg hnf]

/-- A run of k + 1 consecutive submits on a ring with exactly k free slots
(tail + 1 + k = head mod N) whose head descriptor is not complete: the first
k succeed and the last one fails.  This is the backpressure behaviour of
send_packet for any frame, there being no length check. -/
theorem runSubmits_replicate (d : Nat → Nat) (l : Nat) :
    ∀ (k : Nat) (s : BState), s.tx_head < 1024 → s.tx_tail < 1024 →
    (s.tx_tail + 1 + k) % 1024 = s.tx_head → k < 1024 →
    (s.txDesc s.tx_head).status &&& 1 = 0 →
    (runSubmits d l (k + 1) s).1 = List.replicate k true ++ [false] := by
  intro k
  induction k with
  | zero =>
    intro s hh ht hfull _ hdd
    have := send_packet_full_stuck s d l hh (by omega) hdd
    simp [runSubmits, this]
  | succ k ih =>
    intro s hh ht hfull hk hdd
    have hnf : (s.tx_tail + 1) % 1024 ≠ s.tx_head := by omega
    have hgo := send_packet_go s d l hnf
    have hcore : sendCore s d l ((s.tx_tail + 1) % 1024) =
        (true, (sendCore s d l ((s.tx_tail + 1) % 1024)).2) := by
      simp [sendCore]
    set s1 := (sendCore s d l ((s.tx_tail + 1) % 1024)).2 with hs1
    have hh1 : s1.tx_head = s.tx_head := by simp [hs1, sendCore]
    have ht1 : s1.tx_tail = (s.tx_tail + 1) % 1024 := by simp [hs1, sendCore]
    have hdd1 : (s1.txDesc s1.tx_head).status &&& 1 = 0 := by
      by_cases he : s.tx_head = s.tx_tail
      · simp [hs1, sendCore, hh1, he]
      · simp [hs1, sendCore, hh1, he, hdd]
    have := ih s1 (by omega) (by rw [ht1]; omega)
      (by rw [ht1, hh1]; omega) (by omega) hdd1
    simp only [runSubmits, hgo, hcore]
    simp only [runSubmits] at this
    simpa [List.replicate_succ] using this

end Bcm

namespace CustomNIC

/-- Every submit of a frame of at most PACKET_BUFFER_SIZE bytes succeeds:
submit_tx has no ring-full check, so a run of n consecutive submits returns
true n times from any state. -/
theorem runSubmits_all_true (d : Nat → Nat) (l : Nat) (hl : ¬ PACKET_BUFFER_SIZE < l) :
    ∀ (n : Nat) (s : State), (runSubmits d l n s).1 = List.replicate n true := by
  intro n
  induction n with
  | zero => intro s; rfl
  | succ n ih =>
    intro s
    simp [runSubmits, submit_tx, hl, ih, List.replicate_succ]

end CustomNIC

namespace Efvi

/-- The initialize() posting loop adds exactly its iteration count to
rx_posted_ and touches nothing else. -/
theorem postLoop_spec (s : SfState) :
    ∀ n, (postLoop s n).rx_posted = s.rx_posted + n ∧
      (postLoop s n).initialized = s.initialized ∧
      (postLoop s n).tx_posted = s.tx_posted ∧
      (postLoop s n).pkt_bufs = s.pkt_bufs := by
  intro n
  induction n with
  | zero => simp [postLoop]
  | succ n ih =>
    obtain ⟨h1, h2, h3, h4⟩ := ih
    simp only [postLoop, post_rx_buffer]
    refine ⟨?_, h2, h3, h4⟩
    omega

/-- The state and results of a successful poll: with the instance
initialized and at least one RX buffer posted, poll_rx reports a packet of
length 64 and leaves the state unchanged except for the
decrement-then-repost of rx_posted_. -/
theorem poll_rx_hit (s : SfState) (pkt : EfviPacket)
    (h1 : s.initialized = true) (hpos : 0 < s.rx_posted) :
    (poll_rx s pkt).1 = true ∧ (poll_rx s pkt).2.1.len = 64 ∧
    (poll_rx s pkt).2.2 = { s with rx_posted := s.rx_posted - 1 + 1 } := by
  have hni : ¬ s.initialized = false := by simp [h1]
  simp [poll_rx, hni, hpos, post_rx_buffer]

/-- submit_tx changes neither the initialized flag nor rx_posted_. -/
theorem submit_tx_rx_frame (s : SfState) (len : Nat) :
    (submit_tx s len).2.initialized = s.initialized ∧
    (submit_tx s len).2.rx_posted = s.rx_posted := by
  unfold submit_tx
  split
  · exact ⟨rfl, rfl⟩
  · split
    · exact ⟨rfl, rfl⟩
    · split
      · exact ⟨rfl, rfl⟩
      · exact ⟨rfl, rfl⟩

/-- poll_tx_completions changes neither the initialized flag nor
rx_posted_. -/
theorem poll_tx_completions_rx_frame (s : SfState) :
    (poll_tx_completions s).initialized = s.initialized ∧
    (poll_tx_completions s).rx_posted = s.rx_posted := by
  unfold poll_tx_completions
  split
  · exact ⟨rfl, rfl⟩
  · exact ⟨rfl, rfl⟩

/-- After initialize() on the constructor state: initialized, 512 RX buffers
posted, no TX buffers posted, every packet-buffer pointer null. -/
theorem initializeDriver_spec (bufs0 : Nat → Option Nat) (clk : Nat) :
    (initializeDriver (ctor bufs0 clk)).2.initialized = true ∧
    (initializeDriver (ctor bufs0 clk)).2.rx_posted = EFVI_RX_RING_SIZE ∧
    (initializeDriver (ctor bufs0 clk)).2.tx_posted = 0 ∧
    (initializeDriver (ctor bufs0 clk)).2.pkt_bufs = fun _ => none := by
  have h := postLoop_spec
    { initialized := true, rx_posted := 0, tx_posted := 0,
      pkt_bufs := fun _ => none, clock := clk } EFVI_RX_RING_SIZE
  simp only [initializeDriver, allocate_packet_buffers, ctor]
  exact ⟨by simpa using h.2.1, by simpa using h.1,
    by simpa using h.2.2.1, by simpa using h.2.2.2⟩

/-- The once-initialized, ring-kept-full invariant of the simulated backend
is preserved by every public operation sequence. -/
theorem run_invariant (r : Nat) :
    ∀ (ops : List Op) (s : SfState), s.initialized = true → s.rx_posted = r + 1 →
    (run ops s).initialized = true ∧ (run ops s).rx_posted = r + 1 := by
  intro ops
  induction ops with
  | nil => intro s h1 h2; exact ⟨h1, h2⟩
  | cons op rest ih =>
    intro s h1 h2
    cases op with
    | poll =>
      have hpos : 0 < s.rx_posted := by omega
      have hp := (poll_rx_hit s scratchPkt h1 hpos).2.2
      simp only [run, hp]
      exact ih _ (by simp [h1]) (by simp; omega)
    | submit len =>
      have hs := submit_tx_rx_frame s len
      simp only [run]
      exact ih _ (by rw [hs.1, h1]) (by rw [hs.2, h2])
    | txComp =>
      have hs := poll_tx_completions_rx_frame s
      simp only [run]
      exact ih _ (by rw [hs.1, h1]) (by rw [hs.2, h2])
    | stats =>
      simp only [run, get_stats]
      exact ih _ h1 h2

end Efvi

namespace Bcm

/-- receive_packet never decreases either statistics counter. -/
theorem receive_counters_mono (s : BState) :
    s.packets_received ≤ (receive_packet s).2.packets_received ∧
    s.packets_sent ≤ (receive_packet s).2.packets_sent := by
  simp only [receive_packet]
  split
  · exact ⟨Nat.le_refl _, Nat.le_refl _⟩
  · exact ⟨Nat.le_succ _, Nat.le_refl _⟩

/-- reclaim_tx_descriptors leaves both statistics counters unchanged. -/
theorem reclaim_counters_eq (s : BState) :
    (reclaim_tx_descriptors s).packets_received = s.packets_received ∧
    (reclaim_tx_descriptors s).packets_sent = s.packets_sent := by
  simp [reclaim_tx_descriptors]

/-- send_packet never decreases either statistics counter. -/
theorem send_counters_mono (s : BState) (d : Nat → Nat) (l : Nat) :
    s.packets_received ≤ (send_packet s d l).2.packets_received ∧
    s.packets_sent ≤ (send_packet s d l).2.packets_sent := by
  simp only [send_packet]
  split
  · split
    · exact ⟨Nat.le_refl _, Nat.le_refl _⟩
    · exact ⟨Nat.le_refl _, Nat.le_succ _⟩
  · exact ⟨Nat.le_refl _, Nat.le_succ _⟩

/-- Over any sequence of receive/send/reclaim operations the statistics
counters never decrease. -/
theorem run_counters_mono :
    ∀ (ops : List Op) (s : BState),
    s.packets_received ≤ (run ops s).packets_received ∧
    s.packets_sent ≤ (run ops s).packets_sent := by
  intro ops
  induction ops with
  | nil => intro s; exact ⟨Nat.le_refl _, Nat.le_refl _⟩
  | cons op rest ih =>
    intro s
    cases op with
    | recv =>
      have h1 := receive_counters_mono s
      have h2 := ih (receive_packet s).2
      exact ⟨Nat.le_trans h1.1 h2.1, Nat.le_trans h1.2 h2.2⟩
    | send d l =>
      have h1 := send_counters_mono s d l
      have h2 := ih (send_packet s d l).2
      exact ⟨Nat.le_trans h1.1 h2.1, Nat.le_trans h1.2 h2.2⟩
    | reclaimOp =>
      have h1 := reclaim_counters_eq s
      have h2 := ih (reclaim_tx_descriptors s)
      exact ⟨h1.1 ▸ h2.1, h1.2 ▸ h2.2⟩

end Bcm

/-
  Claim theorems.
-/

/-- Claim C1: evaluation at the failing input.  CustomNICDriver::submit_tx
does reject an oversized frame and leaves the state untouched, but
BroadcomNetXtreme::send_packet has no length check: on a ring that is not
full, a 9217-byte frame (one byte over MAX_PACKET_SIZE) is accepted — it
returns true, the copy runs past the 9216-byte slot (the byte at offset
MAX_PACKET_SIZE lands in slot 1's buffer region), the tail cursor advances
and is written to the TX tail register, and packets_sent_ is incremented. -/
theorem claim_c1_oversize_eval :
    CustomNIC.submit_tx CustomNIC.fresh (fun _ => 171) 9217 = (false, CustomNIC.fresh) ∧
    Bcm.MAX_PACKET_SIZE < 9217 ∧
    (Bcm.send_packet Bcm.fresh (fun _ => 171) 9217).1 = true ∧
    (Bcm.send_packet Bcm.fresh (fun _ => 171) 9217).2.tx_tail = 1 ∧
    (Bcm.send_packet Bcm.fresh (fun _ => 171) 9217).2.regs Bcm.REG_TX_RING_TAIL = 1 ∧
    (Bcm.send_packet Bcm.fresh (fun _ => 171) 9217).2.txBuf Bcm.MAX_PACKET_SIZE = 171 ∧
    Bcm.fresh.txBuf Bcm.MAX_PACKET_SIZE = 0 ∧
    (Bcm.send_packet Bcm.fresh (fun _ => 171) 9217).2.packets_sent = 1 :=
  ⟨rfl, by decide, by decide, by decide, by decide, by decide, rfl, by decide⟩

/-- Claim C2 (amended): the TX full test and the reject-unchanged behaviour
hold for BroadcomNetXtreme::send_packet — the ring is full exactly when
(tail + 1) mod N = head, a submit finding it full runs one reclaim pass and,
when the head descriptor is not complete (so reclaim cannot advance),
returns false with the entire state unchanged; from an empty ring with no
completions exactly N - 1 = 1023 consecutive submits succeed and the N-th
fails.  CustomNICDriver::submit_tx, by contrast, has no ring-full check at
all (see the counterexample). -/
theorem claim_c2_tx_backpressure (s : Bcm.BState) (d dc : Nat → Nat) (l lc : Nat)
    (hh : s.tx_head < Bcm.TX_RING_SIZE)
    (hfull : (s.tx_tail + 1) % Bcm.TX_RING_SIZE = s.tx_head)
    (hdd : (s.txDesc s.tx_head).status &&& Bcm.DESC_STATUS_DD = 0) :
    Bcm.send_packet s d l = (false, s) ∧
    (Bcm.runSubmits dc lc Bcm.TX_RING_SIZE Bcm.fresh).1 =
      List.replicate (Bcm.TX_RING_SIZE - 1) true ++ [false] := by
  constructor
  · exact Bcm.send_packet_full_stuck s d l
      (by simpa [Bcm.TX_RING_SIZE] using hh)
      (by simpa [Bcm.TX_RING_SIZE] using hfull)
      (by simpa [Bcm.DESC_STATUS_DD] using hdd)
  · exact Bcm.runSubmits_replicate dc lc 1023 Bcm.fresh
      (by decide) (by decide) (by decide) (by decide) (by decide)

/-- Witness for claim C2 at a concrete full ring with no completions. -/
theorem claim_c2_tx_backpressure_witness :
    Bcm.send_packet Bcm.fullState (fun _ => 7) 64 = (false, Bcm.fullState) ∧
    (Bcm.runSubmits (fun _ => 7) 64 Bcm.TX_RING_SIZE Bcm.fresh).1 =
      List.replicate (Bcm.TX_RING_SIZE - 1) true ++ [false] :=
  claim_c2_tx_backpressure Bcm.fullState (fun _ => 7) (fun _ => 7) 64 64
    (by decide) (by decide) (by decide)

/-- Counterexample for claim C2 as stated: on CustomNICDriver (TX ring
capacity N = 512), N consecutive submits of a valid-size frame from the
empty ring ALL succeed — the N-th does not return false, because submit_tx
never checks for a full ring. -/
theorem claim_c2_cex :
    64 ≤ CustomNIC.PACKET_BUFFER_SIZE ∧
    (CustomNIC.runSubmits (fun _ => 5) 64 CustomNIC.TX_RING_SIZE CustomNIC.fresh).1 =
      List.replicate CustomNIC.TX_RING_SIZE true :=
  ⟨by decide,
   CustomNIC.runSubmits_all_true (fun _ => 5) 64 (by decide)
     CustomNIC.TX_RING_SIZE CustomNIC.fresh⟩

/-- Claim C6: when the descriptor at the software head has its DD bit clear,
both receive operations report no packet and leave the entire driver state —
head cursor, descriptors, buffers, counters, register map — unchanged, in
every ring state. -/
theorem claim_c6_no_packet_no_effect (s : CustomNIC.State) (b : Bcm.BState)
    (h1 : (s.rxDesc s.rx_head).status_flags &&& CustomNIC.RX_DD_BIT = 0)
    (h2 : (b.rxDesc b.rx_head).status &&& Bcm.DESC_STATUS_DD = 0) :
    CustomNIC.poll_rx s = (none, s) ∧ Bcm.receive_packet b = (none, b) := by
  constructor
  · simp [CustomNIC.poll_rx, h1]
  · simp [Bcm.receive_packet, h2]

/-- Witness for claim C6 at the concrete empty-ring states. -/
theorem claim_c6_no_packet_no_effect_witness :
    CustomNIC.poll_rx CustomNIC.fresh = (none, CustomNIC.fresh) ∧
    Bcm.receive_packet Bcm.fresh = (none, Bcm.fresh) :=
  claim_c6_no_packet_no_effect CustomNIC.fresh Bcm.fresh (by decide) (by decide)

/-- Claim C3 (amended): neither receive operation validates the descriptor
length — the value handed to the caller is the raw 16-bit descriptor length
field, whether it is 0 or exceeds the per-slot buffer capacity; there is no
ProtocolViolation handling, no clamping and no drop counting. -/
theorem claim_c3_raw_length (s : CustomNIC.State) (b : Bcm.BState)
    (hne : s.hwRxHead ≠ s.rx_head)
    (hdd : (s.rxDesc s.rx_head).status_flags &&& CustomNIC.RX_DD_BIT ≠ 0)
    (hddb : (b.rxDesc b.rx_head).status &&& Bcm.DESC_STATUS_DD ≠ 0) :
    (CustomNIC.poll_rx s).1 = some (s.rx_head, (s.rxDesc s.rx_head).pkt_len) ∧
    (Bcm.receive_packet b).1 =
      some (b.rxBufsBase + b.rx_head * Bcm.MAX_PACKET_SIZE,
        (b.rxDesc b.rx_head).length) := by
  constructor
  · simp [CustomNIC.poll_rx, hne, hdd]
  · simp [Bcm.receive_packet, hddb]

/-- Witness for claim C3 at concrete descriptor-done states. -/
theorem claim_c3_raw_length_witness :
    (CustomNIC.poll_rx CustomNIC.rxOversizeState).1 =
      some (CustomNIC.rxOversizeState.rx_head,
        (CustomNIC.rxOversizeState.rxDesc CustomNIC.rxOversizeState.rx_head).pkt_len) ∧
    (Bcm.receive_packet Bcm.rxReadyState).1 =
      some (Bcm.rxReadyState.rxBufsBase +
          Bcm.rxReadyState.rx_head * Bcm.MAX_PACKET_SIZE,
        (Bcm.rxReadyState.rxDesc Bcm.rxReadyState.rx_head).length) :=
  claim_c3_raw_length CustomNIC.rxOversizeState Bcm.rxReadyState
    (by decide) (by decide) (by decide)

/-- Counterexample for claim C3 as stated: a done descriptor advertising a
4096-byte frame makes poll_rx hand the caller length 4096, which exceeds the
2048-byte bound buffer capacity PACKET_BUFFER_SIZE. -/
theorem claim_c3_cex :
    (CustomNIC.poll_rx CustomNIC.rxOversizeState).1 = some (0, 4096) ∧
    CustomNIC.PACKET_BUFFER_SIZE < 4096 := by
  exact ⟨by decide, by decide⟩

/-- Claim C4 (amended): on a done head descriptor both receive operations
return the bound buffer pointer and the descriptor length, clear the
descriptor status, and advance head to (head + 1) mod N; but only
CustomNICDriver::poll_rx writes the NEW head to the hardware RX tail
register — BroadcomNetXtreme::receive_packet writes (new head - 1) mod N,
that is the pre-advance head index of the slot just consumed. -/
theorem claim_c4_rx_advance (s : CustomNIC.State) (b : Bcm.BState)
    (hne : s.hwRxHead ≠ s.rx_head)
    (hdd : (s.rxDesc s.rx_head).status_flags &&& CustomNIC.RX_DD_BIT ≠ 0)
    (hddb : (b.rxDesc b.rx_head).status &&& Bcm.DESC_STATUS_DD ≠ 0)
    (hbh : b.rx_head < Bcm.RX_RING_SIZE) :
    CustomNIC.poll_rx s =
      (some (s.rx_head, (s.rxDesc s.rx_head).pkt_len),
        { s with
            rxDesc := fun i =>
              if i = s.rx_head then { s.rxDesc s.rx_head with status_flags := 0 }
              else s.rxDesc i
            rx_head := (s.rx_head + 1) % CustomNIC.RX_RING_SIZE
            regs := CustomNIC.write_reg32 s.regs CustomNIC.REG_RX_TAIL
              ((s.rx_head + 1) % CustomNIC.RX_RING_SIZE) }) ∧
    Bcm.receive_packet b =
      (some (b.rxBufsBase + b.rx_head * Bcm.MAX_PACKET_SIZE,
          (b.rxDesc b.rx_head).length),
        { b with
            rxDesc := fun i =>
              if i = b.rx_head then { b.rxDesc b.rx_head with status := 0 }
              else b.rxDesc i
            rx_head := (b.rx_head + 1) % Bcm.RX_RING_SIZE
            regs := Bcm.write_reg b.regs Bcm.REG_RX_RING_TAIL b.rx_head
            packets_received := b.packets_received + 1 }) := by
  have ht := u32_tail b.rx_head (by simpa [Bcm.RX_RING_SIZE] using hbh)
  constructor
  · simp [CustomNIC.poll_rx, hne, hdd, CustomNIC.RX_RING_SIZE]
  · simp [Bcm.receive_packet, hddb, Bcm.RX_RING_SIZE, ht]

/-- Witness for claim C4 at concrete descriptor-done states. -/
theorem claim_c4_rx_advance_witness :
    CustomNIC.poll_rx CustomNIC.rxOversizeState =
      (some (CustomNIC.rxOversizeState.rx_head,
          (CustomNIC.rxOversizeState.rxDesc CustomNIC.rxOversizeState.rx_head).pkt_len),
        { CustomNIC.rxOversizeState with
            rxDesc := fun i =>
              if i = CustomNIC.rxOversizeState.rx_head then
                { CustomNIC.rxOversizeState.rxDesc CustomNIC.rxOversizeState.rx_head with
                    status_flags := 0 }
              else CustomNIC.rxOversizeState.rxDesc i
            rx_head := (CustomNIC.rxOversizeState.rx_head + 1) % CustomNIC.RX_RING_SIZE
            regs := CustomNIC.write_reg32 CustomNIC.rxOversizeState.regs
              CustomNIC.REG_RX_TAIL
              ((CustomNIC.rxOversizeState.rx_head + 1) % CustomNIC.RX_RING_SIZE) }) ∧
    Bcm.receive_packet Bcm.rxReadyState =
      (some (Bcm.rxReadyState.rxBufsBase +
          Bcm.rxReadyState.rx_head * Bcm.MAX_PACKET_SIZE,
          (Bcm.rxReadyState.rxDesc Bcm.rxReadyState.rx_head).length),
        { Bcm.rxReadyState with
            rxDesc := fun i =>
              if i = Bcm.rxReadyState.rx_head then
                { Bcm.rxReadyState.rxDesc Bcm.rxReadyState.rx_head with status := 0 }
              else Bcm.rxReadyState.rxDesc i
            rx_head := (Bcm.rxReadyState.rx_head + 1) % Bcm.RX_RING_SIZE
            regs := Bcm.write_reg Bcm.rxReadyState.regs Bcm.REG_RX_RING_TAIL
              Bcm.rxReadyState.rx_head
            packets_received := Bcm.rxReadyState.packets_received + 1 }) :=
  claim_c4_rx_advance CustomNIC.rxOversizeState Bcm.rxReadyState
    (by decide) (by decide) (by decide) (by decide)

/-- Counterexample for claim C4 as stated: a successful receive on the
Broadcom driver advances the software head to 1 but writes 0 — the old head,
not the new head value — to the hardware RX tail register. -/
theorem claim_c4_cex :
    (Bcm.receive_packet Bcm.rxReadyState).1.isSome = true ∧
    (Bcm.receive_packet Bcm.rxReadyState).2.rx_head = 1 ∧
    (Bcm.receive_packet Bcm.rxReadyState).2.regs Bcm.REG_RX_RING_TAIL = 0 := by
  exact ⟨by decide, by decide, by decide⟩

/-- Claim C5: on a full TX ring whose k oldest pending descriptors are
complete (DD set) and whose next pending descriptor is not, reclaim advances
the head cursor exactly over that maximal run — to (head + k) mod N — and
changes nothing else (no descriptor contents, no other cursor, no counters,
no registers); afterwards exactly k further submissions succeed and the
(k + 1)-th fails. -/
theorem claim_c5_reclaim (s : Bcm.BState) (k : Nat) (d : Nat → Nat) (l : Nat)
    (hh : s.tx_head < Bcm.TX_RING_SIZE) (ht : s.tx_tail < Bcm.TX_RING_SIZE)
    (hfull : (s.tx_tail + 1) % Bcm.TX_RING_SIZE = s.tx_head)
    (hk : k ≤ Bcm.TX_RING_SIZE - 2)
    (hrun : ∀ i, i < k →
      (s.txDesc ((s.tx_head + i) % Bcm.TX_RING_SIZE)).status &&& Bcm.DESC_STATUS_DD ≠ 0)
    (hstop : (s.txDesc ((s.tx_head + k) % Bcm.TX_RING_SIZE)).status &&&
      Bcm.DESC_STATUS_DD = 0) :
    Bcm.reclaim_tx_descriptors s =
      { s with tx_head := (s.tx_head + k) % Bcm.TX_RING_SIZE } ∧
    (Bcm.runSubmits d l (k + 1) (Bcm.reclaim_tx_descriptors s)).1 =
      List.replicate k true ++ [false] := by
  simp only [Bcm.TX_RING_SIZE] at hh ht hfull hk hrun hstop ⊢
  simp only [Bcm.DESC_STATUS_DD] at hrun hstop
  have hloop : ∀ i, i < k → (s.tx_head + i) % 1024 ≠ s.tx_tail ∧
      (s.txDesc ((s.tx_head + i) % 1024)).status &&& 1 ≠ 0 := by
    intro i hi
    exact ⟨by omega, hrun i hi⟩
  have hrec := Bcm.reclaimAux_spec s.txDesc s.tx_tail k Bcm.TX_RING_SIZE s.tx_head
    (by simp [Bcm.TX_RING_SIZE]; omega) hh hloop (Or.inr hstop)
  have hstate : Bcm.reclaim_tx_descriptors s =
      { s with tx_head := (s.tx_head + k) % 1024 } := by
    simp [Bcm.reclaim_tx_descriptors, hrec]
  refine ⟨hstate, ?_⟩
  rw [hstate]
  exact Bcm.runSubmits_replicate d l k _ (Nat.mod_lt _ (by omega)) (by simpa using ht)
    (by simp only []; omega) (by omega) (by simpa using hstop)

/-- Witness for claim C5 at a concrete full ring with three completed
descriptors and k = 3. -/
theorem claim_c5_reclaim_witness :
    Bcm.reclaim_tx_descriptors Bcm.fullThreeDone =
      { Bcm.fullThreeDone with
          tx_head := (Bcm.fullThreeDone.tx_head + 3) % Bcm.TX_RING_SIZE } ∧
    (Bcm.runSubmits (fun _ => 9) 60 (3 + 1)
        (Bcm.reclaim_tx_descriptors Bcm.fullThreeDone)).1 =
      List.replicate 3 true ++ [false] :=
  claim_c5_reclaim Bcm.fullThreeDone 3 (fun _ => 9) 60
    (by decide) (by decide) (by decide) (by decide) (by decide) (by decide)

/-- Claim C7 (amended): of all the paths that write a ring tail register,
only BroadcomNetXtreme::send_packet places a store barrier (its sfence)
between the DMA-visible descriptor/buffer stores and the tail write; the
CustomNICDriver setup path is ordered only incidentally (by the mfence
trailing the previous register write).  CustomNICDriver::submit_tx and
poll_rx issue their mfence after the tail store, so the tail write follows
the descriptor/buffer stores with no intervening barrier, and the Broadcom
receive and initialize paths have no barrier at all. -/
theorem claim_c7_barrier_audit :
    Traces.tailOrdered Traces.bcmSendPacket = true ∧
    Traces.tailOrdered Traces.customProgramRxRing = true ∧
    Traces.tailOrdered Traces.customSubmitTx = false ∧
    Traces.tailOrdered Traces.customPollRxHit = false ∧
    Traces.tailOrdered Traces.bcmReceivePacketHit = false ∧
    Traces.tailOrdered Traces.bcmInitialize = false := by
  decide

/-- Counterexample for claim C7 as stated: in CustomNICDriver::submit_tx the
TX tail-register write follows the buffer memcpy and the descriptor stores
with no store barrier in between (the mfence of write_reg32 comes after the
MMIO store), so this tail write is not ordered after a barrier covering the
prior DMA-visible writes. -/
theorem claim_c7_cex : Traces.tailOrdered Traces.customSubmitTx = false := by
  decide

/-- Claim C8: over every sequence of receive/send/reclaim operations the
BroadcomNetXtreme statistics counters never decrease (they are incremented
only, never reset), and reading the statistics — get_packets_received /
get_packets_sent on the Broadcom driver, get_stats on the custom and
Solarflare drivers — returns a snapshot and changes no driver state. -/
theorem claim_c8_stats_monotone (ops : List Bcm.Op) (s : Bcm.BState)
    (c : CustomNIC.State) (e : Efvi.SfState) :
    s.packets_received ≤ (Bcm.run ops s).packets_received ∧
    s.packets_sent ≤ (Bcm.run ops s).packets_sent ∧
    Bcm.get_packets_received s = (s.packets_received, s) ∧
    Bcm.get_packets_sent s = (s.packets_sent, s) ∧
    CustomNIC.get_stats c = (({} : PacketStats), c) ∧
    Efvi.get_stats e = (({} : PacketStats), e) :=
  ⟨(Bcm.run_counters_mono ops s).1, (Bcm.run_counters_mono ops s).2,
    rfl, rfl, rfl, rfl⟩

/-- Claim C9: once initialize() succeeds on the simulated Solarflare
backend, rx_posted_ equals EFVI_RX_RING_SIZE, and after any sequence of
public operations every poll_rx call returns true with a fabricated
64-byte packet, leaving rx_posted_ unchanged — the simulation never reports
"no packet" once initialized, whatever the inputs. -/
theorem claim_c9_sim_always_ready (bufs0 : Nat → Option Nat) (clk : Nat)
    (ops : List Efvi.Op) (pkt : Efvi.EfviPacket) :
    (Efvi.initializeDriver (Efvi.ctor bufs0 clk)).2.rx_posted = Efvi.EFVI_RX_RING_SIZE ∧
    (Efvi.initializeDriver (Efvi.ctor bufs0 clk)).2.initialized = true ∧
    (Efvi.poll_rx (Efvi.afterOps bufs0 clk ops) pkt).1 = true ∧
    (Efvi.poll_rx (Efvi.afterOps bufs0 clk ops) pkt).2.1.len = 64 ∧
    (Efvi.poll_rx (Efvi.afterOps bufs0 clk ops) pkt).2.2.rx_posted =
      (Efvi.afterOps bufs0 clk ops).rx_posted := by
  have hinit := Efvi.initializeDriver_spec bufs0 clk
  have hinv := Efvi.run_invariant 511 ops (Efvi.afterInit bufs0 clk) hinit.1
    (by simpa [Efvi.EFVI_RX_RING_SIZE, Efvi.afterInit] using hinit.2.1)
  have hpos : 0 < (Efvi.afterOps bufs0 clk ops).rx_posted := by
    have := hinv.2
    simp only [Efvi.afterOps]
    omega
  have hhit := Efvi.poll_rx_hit (Efvi.afterOps bufs0 clk ops) pkt
    (by simpa [Efvi.afterOps] using hinv.1) hpos
  refine ⟨hinit.2.1, hinit.1, hhit.1, hhit.2.1, ?_⟩
  rw [hhit.2.2]
  simp only []
  omega

/-- Claim C10: evaluation at the failing input.  After initialize() the
simulated backend accepts a 64-byte submit — submit_tx returns true — yet
the buffer pointer it copies the caller's bytes through,
handle_.pkt_bufs[tx_posted_], is null: allocate_packet_buffers set every
packet-buffer pointer to nullptr, so the successful submit memcpy-s through
a null pointer. -/
theorem claim_c10_null_buffer_eval :
    (Efvi.submit_tx (Efvi.afterInit (fun _ => some 1) 0) 64).1 = true ∧
    (Efvi.afterInit (fun _ => some 1) 0).pkt_bufs
      (Efvi.afterInit (fun _ => some 1) 0).tx_posted = none := by
  have h := Efvi.initializeDriver_spec (fun _ => some 1) 0
  constructor
  · have h1 : (Efvi.afterInit (fun _ => some 1) 0).initialized = true := h.1
    have h3 : (Efvi.afterInit (fun _ => some 1) 0).tx_posted = 0 := h.2.2.1
    simp [Efvi.submit_tx, h1, h3, Efvi.EFVI_PKT_BUF_SIZE, Efvi.EFVI_TX_RING_SIZE]
  · have h4 : (Efvi.afterInit (fun _ => some 1) 0).pkt_bufs = fun _ => none := h.2.2.2
    rw [h4]

end BareMetalNIC
